import Mathlib

/-
Verification development for the Golden-Reel client core.

Embedded source:
- src/services/geminiService.ts — module-load credential check (API_KEY),
  the GoogleGenAI client, and getVividWarmFilterCss (response validation and
  error wrapping);
- the App component — the session state machine over originalImage,
  filteredCss, isLoading and error, driven by handleImageUpload (FileReader
  onloadend), applyFilter, the request completion, and handleReset.

External collaborators (the GoogleGenAI transport, JSON.parse) are passed in
as function parameters; everything else is translated directly from the
TypeScript source.
-/

/-- A JSON value as produced by JSON.parse. -/
inductive Json where
  | null
  | bool (b : Bool)
  | num (n : Int)
  | str (s : String)
  | arr (elems : List Json)
  | obj (fields : List (String × Json))

/-- A JavaScript thrown value as seen by a catch clause: an Error instance
carrying its message, or any non-Error value. -/
inductive Thrown where
  | errObj (msg : String)
  | nonError
deriving DecidableEq

instance {ε α : Type} [DecidableEq ε] [DecidableEq α] : DecidableEq (Except ε α) :=
  fun a b =>
    match a, b with
    | Except.ok x, Except.ok y =>
      if h : x = y then isTrue (by rw [h])
      else isFalse (fun c => h (Except.ok.inj c))
    | Except.ok _, Except.error _ => isFalse (fun c => Except.noConfusion c)
    | Except.error _, Except.ok _ => isFalse (fun c => Except.noConfusion c)
    | Except.error x, Except.error y =>
      if h : x = y then isTrue (by rw [h])
      else isFalse (fun c => h (Except.error.inj c))

/-- The GoogleGenAI client constructed at module load from the API key
(`const ai = new GoogleGenAI(\x7b apiKey: API_KEY \x7d)`). -/
structure GeminiClient where
  apiKey : String
deriving DecidableEq

/-- Module load of geminiService.ts (lines 1-9): read `process.env.API_KEY`;
a falsy value (undefined or the empty string) throws
"API_KEY environment variable not set." immediately, before the client is
constructed and hence before any request can be issued; otherwise the client
is built from the key. -/
def moduleLoad (env : Option String) : Except String GeminiClient :=
  match env with
  | none => Except.error "API_KEY environment variable not set."
  | some k =>
    if k = "" then Except.error "API_KEY environment variable not set."
    else Except.ok { apiKey := k }

/-- Whitespace as removed by JS String.prototype.trim (the characters that can
occur in the payloads considered here; the full JS set is larger). -/
def isJsSpace (c : Char) : Bool :=
  c == ' ' || c == '\t' || c == '\n' || c == '\r'

/-- JS String.prototype.trim: drop leading and trailing whitespace. -/
def jsTrim (s : String) : String :=
  String.mk (((s.data.dropWhile isJsSpace).reverse.dropWhile isJsSpace).reverse)

/-- Representative message of the TypeError raised by a property access on
null; the exact text is defined by the JS engine, not by this repository. -/
def nullAccessTypeErrorMsg : String := "Cannot read properties of null"

/-- The JS expression `typeof result.filter === "string" ? result.filter : ⊥`
on a parsed JSON value: the string value of the filter property when it is a
string, none when the property is absent or not a string, and a thrown
TypeError when the parsed value itself is null (property access on null
throws before typeof can inspect it). -/
def filterStringProp : Json → Except String (Option String)
  | Json.null => Except.error nullAccessTypeErrorMsg
  | Json.obj fields =>
    Except.ok (match List.lookup "filter" fields with
      | some (Json.str s) => some s
      | _ => none)
  | _ => Except.ok none

/-- The try-block of getVividWarmFilterCss (geminiService.ts lines 28-59):
issue the generateContent call, trim the response text, reject an empty
payload, JSON.parse it, and validate the filter field. `gen` models
`ai.models.generateContent` resolving to `response.text` or rejecting with a
thrown value; `jsonParse` models JSON.parse, returning the SyntaxError
message on failure. -/
def generateBody (ai : GeminiClient) (gen : GeminiClient → Except Thrown String)
    (jsonParse : String → Except String Json) : Except Thrown String :=
  match gen ai with
  | Except.error t => Except.error t
  | Except.ok text =>
    let jsonText := jsTrim text
    if jsonText = "" then
      Except.error (Thrown.errObj "API returned an empty response.")
    else
      match jsonParse jsonText with
      | Except.error parseErrMsg => Except.error (Thrown.errObj parseErrMsg)
      | Except.ok result =>
        match filterStringProp result with
        | Except.error typeErrMsg => Except.error (Thrown.errObj typeErrMsg)
        | Except.ok (some f) =>
          if 0 < f.length then Except.ok f
          else Except.error (Thrown.errObj "Invalid or empty filter value in API response.")
        | Except.ok none =>
          Except.error (Thrown.errObj "Invalid or empty filter value in API response.")

/-- getVividWarmFilterCss (geminiService.ts lines 28-68): the try body wrapped
by the catch clause, which re-throws an Error instance with the
"Gemini API Error: " prefixed message and turns any non-Error throwable into
a fixed fallback Error. A rejection of the returned promise is modeled as
Except.error carrying the thrown Error message. -/
def getVividWarmFilterCss (ai : GeminiClient)
    (gen : GeminiClient → Except Thrown String)
    (jsonParse : String → Except String Json) : Except String String :=
  match generateBody ai gen jsonParse with
  | Except.ok f => Except.ok f
  | Except.error (Thrown.errObj m) => Except.error ("Gemini API Error: " ++ m)
  | Except.error Thrown.nonError =>
    Except.error "An unexpected error occurred while communicating with the Gemini API."

/-- The App component's session state: originalImage, filteredCss, isLoading,
error, plus a count of generateContent requests issued so far (so that the
issuance of a duplicate request is observable in the model). -/
structure AppState where
  image : Option String
  filter : Option String
  pending : Bool
  error : Option String
  issued : Nat
deriving DecidableEq

/-- JS falsiness of a string-or-null value (the `!originalImage` guard in
applyFilter): null and the empty string are falsy. -/
def isFalsy : Option String → Bool
  | none => true
  | some s => s == ""

/-- The discrete events mutating the App session state:
- fileReadComplete: the FileReader onloadend callback of handleImageUpload,
  carrying reader.result (none when the read failed, since result is then
  null);
- requestFilter: an invocation of applyFilter;
- complete: an issued getVividWarmFilterCss call settling, re-entering
  applyFilter's try/catch/finally (Except.ok css, or Except.error with the
  thrown value);
- reset: handleReset. -/
inductive Event where
  | fileReadComplete (result : Option String)
  | requestFilter
  | complete (outcome : Except Thrown String)
  | reset
deriving DecidableEq

/-- The message applyFilter's catch clause extracts from a thrown value
(`err instanceof Error ? err.message : "An unknown error occurred."`). -/
def caughtMessage : Thrown → String
  | Thrown.errObj m => m
  | Thrown.nonError => "An unknown error occurred."

/-- One event step of the App session, translated from handleImageUpload,
applyFilter and handleReset. applyFilter returns early when originalImage is
falsy; otherwise it sets isLoading, clears error and filteredCss, and issues
one generateContent request. A completion sets filteredCss (success) or error
(failure) and always clears isLoading; the code attaches no token to a
request, so a completion is applied to whatever state is current. -/
def step (s : AppState) : Event → AppState
  | Event.fileReadComplete r => { s with image := r, filter := none, error := none }
  | Event.requestFilter =>
    if isFalsy s.image then s
    else { s with pending := true, error := none, filter := none, issued := s.issued + 1 }
  | Event.complete (Except.ok css) => { s with filter := some css, pending := false }
  | Event.complete (Except.error t) =>
    { s with error := some ("Failed to apply filter. " ++ caughtMessage t), pending := false }
  | Event.reset => { s with image := none, filter := none, error := none, pending := false }

/-- Run a sequence of events from a starting state. -/
def run (s : AppState) (es : List Event) : AppState := es.foldl step s

/-- The state at component mount: all useState initial values. -/
def initialState : AppState :=
  { image := none, filter := none, pending := false, error := none, issued := 0 }

/-- A user click on the Apply button: the button carries
`disabled=\x7bisLoading\x7d`, so a click while pending does nothing;
otherwise it invokes applyFilter. -/
def clickApplyFilter (s : AppState) : AppState :=
  if s.pending then s else step s Event.requestFilter

/-- Events delivered by the user-facing boundary (upload completion, filter
request, reset), as opposed to generation completions. -/
def isUserEvent : Event → Bool
  | Event.complete _ => false
  | _ => true

/-- Session invariant of spec section 3: while a request is pending, filter
and error are unset. -/
def sessionInv (s : AppState) : Prop :=
  s.pending = true → (s.filter = none ∧ s.error = none)

/-- The state reached by a successful upload followed by one applyFilter:
a Requesting state with one request outstanding. -/
def requestingState : AppState :=
  run initialState [Event.fileReadComplete (some "data:image/png;base64,AA"), Event.requestFilter]

/-- Upload, request, then reset: a request was issued before the reset and is
still unsettled afterwards. -/
def staleTrace : List Event :=
  [Event.fileReadComplete (some "data:image/png;base64,AA"), Event.requestFilter, Event.reset]

/-- A client value for concrete scenarios. -/
def someClient : GeminiClient := { apiKey := "test-key" }

/-- The descriptor string of spec Scenario A. -/
def scenarioADescriptor : String := "saturate(1.2) contrast(1.1)"

/-- The Scenario A success payload: the JSON text \x7b"filter": "saturate(1.2) contrast(1.1)"\x7d. -/
def scenarioAPayload : String := "\x7b\"filter\": \"saturate(1.2) contrast(1.1)\"\x7d"

/-- The Scenario A payload as the JSON value JSON.parse produces for it. -/
def scenarioAJson : Json := Json.obj [("filter", Json.str scenarioADescriptor)]

/-- JSON.parse oracle for the concrete payloads used in scenarios: the literal
null payload parses to null, the Scenario A payload to its object, and
anything else reports a SyntaxError. -/
def scenarioParse : String → Except String Json := fun t =>
  if t = "null" then Except.ok Json.null
  else if t = scenarioAPayload then Except.ok scenarioAJson
  else Except.error "Unexpected token in JSON"

/-- Transport oracle resolving with the payload "null". -/
def genNullPayload : GeminiClient → Except Thrown String := fun _ => Except.ok "null"

/-- Transport oracle resolving with the Scenario A payload. -/
def genScenarioA : GeminiClient → Except Thrown String := fun _ => Except.ok scenarioAPayload

/-- Transport oracle resolving with a whitespace-only payload. -/
def genBlankPayload : GeminiClient → Except Thrown String := fun _ => Except.ok "   "

/-- Transport oracle rejecting with an Error whose message is "timeout". -/
def genRejectTimeout : GeminiClient → Except Thrown String :=
  fun _ => Except.error (Thrown.errObj "timeout")

theorem sessionInv_initial : sessionInv initialState := by
  intro h
  simp [initialState] at h

theorem sessionInv_step (s : AppState) (e : Event) (h : sessionInv s) :
    sessionInv (step s e) := by
  cases e with
  | fileReadComplete r => intro _; exact ⟨rfl, rfl⟩
  | requestFilter =>
    simp only [step]
    split
    · exact h
    · intro _; exact ⟨rfl, rfl⟩
  | complete o =>
    cases o with
    | ok css => intro hp; simp [step] at hp
    | error t => intro hp; simp [step] at hp
  | reset => intro hp; simp [step] at hp

theorem sessionInv_run (es : List Event) (s : AppState) (h : sessionInv s) :
    sessionInv (run s es) := by
  induction es generalizing s with
  | nil => exact h
  | cons e es ih => exact ih (step s e) (sessionInv_step s e h)

/-- C1: the claim says a generation completion arriving after a reset (or
after a superseding requestFilter) must not mutate the current session. The
code attaches no token to a request and the completion callback mutates
unconditionally, so the claim fails: after upload, requestFilter, reset the
session is empty, yet the stale success completion sets filter on it. -/
theorem stale_completion_mutates_reset_session :
    run initialState staleTrace =
      { image := none, filter := none, pending := false, error := none, issued := 1 }
  ∧ (run initialState
        (staleTrace ++ [Event.complete (Except.ok scenarioADescriptor)])).filter
      = some scenarioADescriptor
  ∧ run initialState (staleTrace ++ [Event.complete (Except.ok scenarioADescriptor)])
      ≠ run initialState staleTrace := by
  decide

/-- C2 counterexample: in the Requesting state reached by upload then
requestFilter (pending = true, one request issued), invoking applyFilter
again is not free of observable effect: it issues a second generateContent
request, so the resulting state differs (issued 1 becomes 2). -/
theorem requestFilter_while_pending_issues_duplicate :
    requestingState.pending = true
  ∧ requestingState.issued = 1
  ∧ (step requestingState Event.requestFilter).issued = 2
  ∧ step requestingState Event.requestFilter ≠ requestingState := by
  decide

/-- C2 (amended): while a request is pending, applyFilter leaves every
session field (image, filter, pending, error) unchanged, and a user click on
the Apply button is a strict no-op because the button is disabled; but
applyFilter itself performs no pending check, so a direct invocation with an
image set issues one more generateContent request. -/
theorem requestFilter_while_pending_fields_unchanged (s : AppState)
    (hp : s.pending = true) (hinv : sessionInv s) :
    (step s Event.requestFilter).image = s.image
  ∧ (step s Event.requestFilter).filter = s.filter
  ∧ (step s Event.requestFilter).pending = s.pending
  ∧ (step s Event.requestFilter).error = s.error
  ∧ clickApplyFilter s = s
  ∧ (isFalsy s.image = false → (step s Event.requestFilter).issued = s.issued + 1) := by
  obtain ⟨hf, he⟩ := hinv hp
  have hclick : clickApplyFilter s = s := by simp [clickApplyFilter, hp]
  simp only [step]
  by_cases hi : isFalsy s.image = true
  · simp [hi, hclick]
  · simp only [Bool.not_eq_true] at hi
    simp [hi, hclick, hf, he, hp]

/-- C2 witness: the amended theorem applied to the concrete Requesting state. -/
theorem requestFilter_while_pending_fields_unchanged_witness :
    requestingState.pending = true
  ∧ (step requestingState Event.requestFilter).image = requestingState.image
  ∧ (step requestingState Event.requestFilter).issued = requestingState.issued + 1
  ∧ clickApplyFilter requestingState = requestingState := by
  have h := requestFilter_while_pending_fields_unchanged requestingState (by decide)
    (fun _ => by decide)
  exact ⟨by decide, h.1, h.2.2.2.2.2 (by decide), h.2.2.2.2.1⟩

/-- C3: for every sequence of the user-facing events (imageLoaded via
fileReadComplete, requestFilter, reset) the session invariant holds after the
run (hence after each event, since any prefix is again such a sequence);
reset clears error, and any requestFilter that actually starts a request
clears error. -/
theorem user_event_sequences_preserve_invariant :
    (∀ es : List Event, (∀ e ∈ es, isUserEvent e = true) →
      sessionInv (run initialState es))
  ∧ (∀ s : AppState, (step s Event.reset).error = none)
  ∧ (∀ s : AppState, isFalsy s.image = false →
      (step s Event.requestFilter).error = none) := by
  refine ⟨?_, ?_, ?_⟩
  · intro es _
    exact sessionInv_run es initialState sessionInv_initial
  · intro s
    rfl
  · intro s hf
    simp [step, hf]

/-- C3 witness: the invariant theorem applied to a concrete user-event
sequence ending in a pending state, and the error-clearing parts applied to
the concrete Requesting state. -/
theorem user_event_sequences_preserve_invariant_witness :
    isUserEvent Event.requestFilter = true
  ∧ sessionInv (run initialState
      [Event.fileReadComplete (some "data:image/png;base64,AA"), Event.requestFilter])
  ∧ (step requestingState Event.reset).error = none
  ∧ (step requestingState Event.requestFilter).error = none := by
  refine ⟨by decide, ?_, ?_, ?_⟩
  · exact user_event_sequences_preserve_invariant.1 _ (by decide)
  · exact user_event_sequences_preserve_invariant.2.1 requestingState
  · exact user_event_sequences_preserve_invariant.2.2 requestingState (by decide)

/-- C4: handleReset, from any state, clears image, filter and error and sets
pending to false, unconditionally. -/
theorem reset_clears_session (s : AppState) :
    (step s Event.reset).image = none
  ∧ (step s Event.reset).filter = none
  ∧ (step s Event.reset).error = none
  ∧ (step s Event.reset).pending = false :=
  ⟨rfl, rfl, rfl, rfl⟩

/-- C4 witness: reset applied to the concrete Requesting state. -/
theorem reset_clears_session_witness :
    (step requestingState Event.reset).image = none
  ∧ (step requestingState Event.reset).filter = none
  ∧ (step requestingState Event.reset).error = none
  ∧ (step requestingState Event.reset).pending = false :=
  reset_clears_session requestingState

/-- C6: the claim says a failed ingestion surfaces as a session error. The
FileReader completion handler is onloadend, which also fires after a failed
read with reader.result = null; the handler then stores the null image and
clears error, so a failed read leaves the session exactly in the initial
Idle state with error unset: the failure is silently swallowed. -/
theorem failed_ingestion_swallows_error :
    (step initialState (Event.fileReadComplete none)).error = none
  ∧ (step initialState (Event.fileReadComplete none)).image = none
  ∧ step initialState (Event.fileReadComplete none) = initialState := by
  decide

/-- C7: applyFilter invoked with no image loaded returns early: the session
is completely unchanged and no request is issued. -/
theorem requestFilter_in_idle_noop (s : AppState) (h : s.image = none) :
    step s Event.requestFilter = s := by
  simp [step, isFalsy, h]

/-- C7 witness: the no-op theorem applied to the initial Idle state. -/
theorem requestFilter_in_idle_noop_witness :
    initialState.image = none ∧ step initialState Event.requestFilter = initialState :=
  ⟨rfl, requestFilter_in_idle_noop initialState rfl⟩

/-- C5 counterexample: the payload "null" parses successfully and its filter
field is not a non-empty string, yet the client does not fail with the
InvalidFilterValue message: the property access result.filter on null raises
a TypeError first, which the catch clause wraps instead. -/
theorem null_payload_not_invalid_filter_value :
    scenarioParse (jsTrim "null") = Except.ok Json.null
  ∧ getVividWarmFilterCss someClient genNullPayload scenarioParse
      = Except.error ("Gemini API Error: " ++ nullAccessTypeErrorMsg)
  ∧ getVividWarmFilterCss someClient genNullPayload scenarioParse
      ≠ Except.error "Gemini API Error: Invalid or empty filter value in API response." := by
  refine ⟨rfl, rfl, by decide⟩

/-- C5 (amended): on a successful call delivering payload raw, the client
fails with EmptyResponse when the trimmed payload is empty; else with the
JSON.parse SyntaxError (MalformedResponse) when it does not parse; else, for
a parsed value other than null, with InvalidFilterValue when the filter
property is absent, not a string, or an empty string; a parsed null fails
with the TypeError of the property access instead; and otherwise the
non-empty filter string is returned. -/
theorem response_validation_classification
    (ai : GeminiClient) (gen : GeminiClient → Except Thrown String)
    (jsonParse : String → Except String Json) (raw : String)
    (hok : gen ai = Except.ok raw) :
    (jsTrim raw = "" →
      getVividWarmFilterCss ai gen jsonParse
        = Except.error "Gemini API Error: API returned an empty response.")
  ∧ (∀ m, jsTrim raw ≠ "" → jsonParse (jsTrim raw) = Except.error m →
      getVividWarmFilterCss ai gen jsonParse = Except.error ("Gemini API Error: " ++ m))
  ∧ (∀ j, jsTrim raw ≠ "" → jsonParse (jsTrim raw) = Except.ok j →
      filterStringProp j = Except.ok none →
      getVividWarmFilterCss ai gen jsonParse
        = Except.error "Gemini API Error: Invalid or empty filter value in API response.")
  ∧ (∀ j f, jsTrim raw ≠ "" → jsonParse (jsTrim raw) = Except.ok j →
      filterStringProp j = Except.ok (some f) → f.length = 0 →
      getVividWarmFilterCss ai gen jsonParse
        = Except.error "Gemini API Error: Invalid or empty filter value in API response.")
  ∧ (jsTrim raw ≠ "" → jsonParse (jsTrim raw) = Except.ok Json.null →
      getVividWarmFilterCss ai gen jsonParse
        = Except.error ("Gemini API Error: " ++ nullAccessTypeErrorMsg))
  ∧ (∀ j f, jsTrim raw ≠ "" → jsonParse (jsTrim raw) = Except.ok j →
      filterStringProp j = Except.ok (some f) → 0 < f.length →
      getVividWarmFilterCss ai gen jsonParse = Except.ok f) := by
  refine ⟨?_, ?_, ?_, ?_, ?_, ?_⟩
  · intro ht
    simp [getVividWarmFilterCss, generateBody, hok, ht]
  · intro m ht hp
    simp [getVividWarmFilterCss, generateBody, hok, ht, hp]
  · intro j ht hp hf
    simp [getVividWarmFilterCss, generateBody, hok, ht, hp, hf]
  · intro j f ht hp hf hlen
    simp [getVividWarmFilterCss, generateBody, hok, ht, hp, hf, hlen]
  · intro ht hp
    simp [getVividWarmFilterCss, generateBody, filterStringProp, hok, ht, hp]
  · intro j f ht hp hf hlen
    simp [getVividWarmFilterCss, generateBody, hok, ht, hp, hf, hlen]

/-- C5 witness: the amended classification at a concrete whitespace-only
payload, which fails with the EmptyResponse message. -/
theorem response_validation_classification_witness :
    genBlankPayload someClient = Except.ok "   "
  ∧ jsTrim "   " = ""
  ∧ getVividWarmFilterCss someClient genBlankPayload scenarioParse
      = Except.error "Gemini API Error: API returned an empty response." := by
  refine ⟨rfl, by decide, ?_⟩
  exact (response_validation_classification someClient genBlankPayload scenarioParse
    "   " rfl).1 (by decide)

/-- C8: a falsy API_KEY (absent from the environment, or empty) makes the
module load of geminiService.ts fail immediately with the configuration
error, before the client is constructed; a present non-empty key yields the
client. Since getVividWarmFilterCss requires the constructed client, no
generation request can precede the check. -/
theorem missing_api_key_fails_at_load (env : Option String) :
    (isFalsy env = true ↔
      moduleLoad env = Except.error "API_KEY environment variable not set.")
  ∧ (∀ k, env = some k → k ≠ "" → moduleLoad env = Except.ok { apiKey := k }) := by
  constructor
  · constructor
    · intro h
      cases env with
      | none => rfl
      | some k =>
        simp [isFalsy] at h
        simp [moduleLoad, h]
    · intro h
      cases env with
      | none => rfl
      | some k =>
        by_cases hk : k = ""
        · simp [isFalsy, hk]
        · simp [moduleLoad, hk] at h
  · intro k hk hne
    subst hk
    simp [moduleLoad, hne]

/-- C8 witness: the load theorem at the absent key and at a present key. -/
theorem missing_api_key_fails_at_load_witness :
    isFalsy (none : Option String) = true
  ∧ moduleLoad none = Except.error "API_KEY environment variable not set."
  ∧ moduleLoad (some "test-key") = Except.ok { apiKey := "test-key" } := by
  refine ⟨rfl, (missing_api_key_fails_at_load none).1.mp rfl, ?_⟩
  exact (missing_api_key_fails_at_load (some "test-key")).2 "test-key" rfl (by decide)

/-- C9: when the call succeeds and the parsed payload's filter field is a
non-empty string f, getVividWarmFilterCss returns exactly f, and the success
completion moves a pending session to Succeeded: filter = f, pending false,
error still unset. -/
theorem success_descriptor_reaches_succeeded
    (ai : GeminiClient) (gen : GeminiClient → Except Thrown String)
    (jsonParse : String → Except String Json) (raw : String) (j : Json) (f : String)
    (s : AppState)
    (hok : gen ai = Except.ok raw) (ht : jsTrim raw ≠ "")
    (hp : jsonParse (jsTrim raw) = Except.ok j)
    (hf : filterStringProp j = Except.ok (some f)) (hlen : 0 < f.length)
    (hpend : s.pending = true) (herr : s.error = none) :
    getVividWarmFilterCss ai gen jsonParse = Except.ok f
  ∧ (step s (Event.complete (Except.ok f))).filter = some f
  ∧ (step s (Event.complete (Except.ok f))).pending = false
  ∧ (step s (Event.complete (Except.ok f))).error = none := by
  refine ⟨?_, rfl, rfl, herr⟩
  simp [getVividWarmFilterCss, generateBody, hok, ht, hp, hf, hlen]

/-- C9 witness: Scenario A, with the concrete payload
\x7b"filter": "saturate(1.2) contrast(1.1)"\x7d completing on the concrete
Requesting state. -/
theorem success_descriptor_reaches_succeeded_witness :
    genScenarioA someClient = Except.ok scenarioAPayload
  ∧ requestingState.pending = true
  ∧ getVividWarmFilterCss someClient genScenarioA scenarioParse
      = Except.ok scenarioADescriptor
  ∧ (step requestingState (Event.complete (Except.ok scenarioADescriptor))).filter
      = some scenarioADescriptor
  ∧ (step requestingState (Event.complete (Except.ok scenarioADescriptor))).pending = false
  ∧ (step requestingState (Event.complete (Except.ok scenarioADescriptor))).error = none := by
  have h := success_descriptor_reaches_succeeded someClient genScenarioA scenarioParse
    scenarioAPayload scenarioAJson scenarioADescriptor requestingState
    rfl (by decide) rfl rfl (by decide) (by decide) (by decide)
  exact ⟨rfl, by decide, h.1, h.2.1, h.2.2.1, h.2.2.2⟩

/-- C10: every failure of getVividWarmFilterCss surfaces as a single thrown
Error: its message is either the Gemini-prefixed message of the underlying
Error (including the client's own validation errors and a rejected call) or
the fixed fallback text for a non-Error throwable. -/
theorem single_error_channel
    (ai : GeminiClient) (gen : GeminiClient → Except Thrown String)
    (jsonParse : String → Except String Json) :
    (∀ m, getVividWarmFilterCss ai gen jsonParse = Except.error m →
      (∃ u, m = "Gemini API Error: " ++ u)
      ∨ m = "An unexpected error occurred while communicating with the Gemini API.")
  ∧ (∀ u, gen ai = Except.error (Thrown.errObj u) →
      getVividWarmFilterCss ai gen jsonParse
        = Except.error ("Gemini API Error: " ++ u))
  ∧ (gen ai = Except.error Thrown.nonError →
      getVividWarmFilterCss ai gen jsonParse
        = Except.error "An unexpected error occurred while communicating with the Gemini API.") := by
  refine ⟨?_, ?_, ?_⟩
  · intro m hm
    cases hb : generateBody ai gen jsonParse with
    | ok f =>
      unfold getVividWarmFilterCss at hm
      rw [hb] at hm
      simp at hm
    | error t =>
      unfold getVividWarmFilterCss at hm
      rw [hb] at hm
      cases t with
      | errObj u =>
        simp at hm
        exact Or.inl ⟨u, hm.symm⟩
      | nonError =>
        simp at hm
        exact Or.inr hm.symm
  · intro u h
    simp [getVividWarmFilterCss, generateBody, h]
  · intro h
    simp [getVividWarmFilterCss, generateBody, h]

/-- C10 witness: a call rejected with an Error "timeout" surfaces as the
prefixed message. -/
theorem single_error_channel_witness :
    genRejectTimeout someClient = Except.error (Thrown.errObj "timeout")
  ∧ getVividWarmFilterCss someClient genRejectTimeout scenarioParse
      = Except.error ("Gemini API Error: " ++ "timeout") :=
  ⟨rfl, (single_error_channel someClient genRejectTimeout scenarioParse).2.1 "timeout" rfl⟩
